import Mathlib

/-!
Shallow embedding of the GCode scheduler problem
(src/omgtools/problems/gcodeschedulerproblem.py).

Real-number quantities are modelled as rationals.  External numeric
helpers (square root, arctangent, cosine, sine, pi) are passed as
explicit function parameters wherever a claim does not depend on their
values, so every theorem quantifies over them.
-/

/-- A 3-component state vector (tool position / waypoint). -/
structure Vec3 where
  x : ℚ
  y : ℚ
  z : ℚ
  deriving DecidableEq

/-- Arc direction tag carried by a Ring shape (G02 = CW, G03 = CCW). -/
inductive Direction where
  | CW
  | CCW
  deriving DecidableEq

/-- Shape values carried by a corridor: the oriented rectangle of a line
block or the annulus (Ring) of an arc block. -/
inductive Shape where
  | rectangle (width height orientation : ℚ)
  | ring (radius_in radius_out : ℚ) (start end_ : Vec3) (direction : Direction)
  deriving DecidableEq

/-- A room of the environment, as built by get_environment: shape, pose
(6-vector), 2-d position, and the original block start/end points. -/
structure Room where
  shape : Shape
  pose : List ℚ
  position : List ℚ
  start : Vec3
  end_ : Vec3
  deriving DecidableEq

/-- One GCode motion block, as handed to get_environment: a straight
line (G00/G01, the flag records which) or a circular arc (G02 = CW,
G03 = CCW) with its center and radius. -/
inductive GBlock where
  | line (g0 : Bool) (start end_ : Vec3)
  | arc (clockwise : Bool) (start end_ : Vec3) (center : Vec3) (radius : ℚ)
  deriving DecidableEq

/-- Exact rational square root stand-in used to instantiate the square
root parameter on concrete inputs; it agrees with the real square root
whenever numerator and denominator are perfect squares, which is the
case at every concrete input used below. -/
def sqrtQ (q : ℚ) : ℚ := (Int.sqrt q.num : ℚ) / (Nat.sqrt q.den : ℚ)

/-- Modelled from the spec: basics/geometry.py (not under src) supplies
distance_between_points; the spec describes it as the Euclidean
distance between the two points.  The square root is a parameter. -/
def distance_between_points (sqrtF : ℚ → ℚ) (a b : Vec3) : ℚ :=
  sqrtF ((b.x - a.x) ^ 2 + (b.y - a.y) ^ 2 + (b.z - a.z) ^ 2)

/-- The corridor builder (get_environment, per block): a line block
becomes an oriented rectangle posed at the block midpoint; an arc block
becomes a ring with inner radius = radius minus tolerance and outer
radius = radius plus tolerance, start
and end re-expressed relative to the center, posed at the center. -/
def get_environment_room (sqrtF : ℚ → ℚ) (atan2F : ℚ → ℚ → ℚ) (tolerance : ℚ)
    (block : GBlock) : Room :=
  match block with
  | .line _ s e =>
    let width := distance_between_points sqrtF s e
    let height := tolerance
    let orientation := atan2F (e.y - s.y) (e.x - s.x)
    let pose := [s.x + (e.x - s.x) * (1/2), s.y + (e.y - s.y) * (1/2),
                 s.z + (e.z - s.z) * (1/2), orientation, 0, 0]
    { shape := .rectangle width height orientation, pose := pose,
      position := pose.take 2, start := s, end_ := e }
  | .arc cw s e c r =>
    let radius_in := r - tolerance
    let radius_out := r + tolerance
    let startRel : Vec3 := ⟨s.x - c.x, s.y - c.y, s.z - c.z⟩
    let endRel : Vec3 := ⟨e.x - c.x, e.y - c.y, e.z - c.z⟩
    let dir : Direction := if cw then .CW else .CCW
    let pose := [c.x, c.y, c.z, 0, 0, 0]
    { shape := .ring radius_in radius_out startRel endRel dir, pose := pose,
      position := pose.take 2, start := s, end_ := e }

/-- Accessor: the (inner, outer) radii of a ring shape, if any. -/
def Shape.ringRadii : Shape → Option (ℚ × ℚ)
  | .ring rin rout _ _ _ => some (rin, rout)
  | _ => none

/-- Accessor: the direction tag of a ring shape, if any. -/
def Shape.ringDirection : Shape → Option Direction
  | .ring _ _ _ _ d => some d
  | _ => none

/-- The border dictionary stored inside a segment. -/
structure Border where
  shape : Shape
  pose : List ℚ
  orientation : ℚ
  limits : Option (List ℚ)
  deriving DecidableEq

/-- A windowed segment: border geometry, the stored block number, and
the start / end waypoints of its corridor. -/
structure Segment where
  border : Border
  number : ℕ
  start : Vec3
  end_ : Vec3
  deriving DecidableEq

/-- create_segment: wraps a room into a segment.  Rooms built by
get_environment carry no orientation key, so the orientation defaults
to 0; rectangle rooms get axis-aligned limits; the stored number is the
scheduler's current n_current_block. -/
def create_segment (n_current_block : ℕ) (block : Room) : Segment :=
  let orientation : ℚ := 0
  let limits : Option (List ℚ) :=
    match block.shape with
    | .rectangle w h _ =>
      some [block.pose.getD 0 0 - w * (1/2), block.pose.getD 1 0 - h * (1/2),
            block.pose.getD 0 0 + w * (1/2), block.pose.getD 1 0 + h * (1/2)]
    | _ => none
  { border := { shape := block.shape, pose := block.pose,
                orientation := orientation, limits := limits },
    number := n_current_block, start := block.start, end_ := block.end_ }

/-- reinitialize: builds the initial window from the room slice
rooms[n : n + k], each wrapped by create_segment with the current
block counter n. -/
def reinitialize_segments (rooms : List Room) (n k : ℕ) : List Segment :=
  ((rooms.drop n).take k).map (create_segment n)

/-- update_segments: drops the first windowed segment and appends a
segment for the room at index n + (k - 1); the Python code indexes the
room list directly, so a missing room is an IndexError, modelled as
none. -/
def update_segments (rooms : List Room) (n k : ℕ) (segs : List Segment) :
    Option (List Segment) :=
  match rooms[n + (k - 1)]? with
  | none => none
  | some r => some (segs.drop 1 ++ [create_segment n r])

/-- check_segments: componentwise exact inequality between the live
tool state and the exit point of the first windowed segment; true means
the window is still valid (no advance). -/
def check_segments (curr seg0End : Vec3) : Bool :=
  (curr.x != seg0End.x) || (curr.y != seg0End.y) || (curr.z != seg0End.z)

/-- The mutable scheduler state touched by one solve iteration. -/
structure SchedState where
  n_current_block : ℕ
  segments : List Segment
  motion_times : List ℚ
  deriving DecidableEq

/-- One scheduling step of solve (before the optimizer call): if
check_segments holds the window is kept and the motion times are
refreshed from the optimizer's time variables (optTimes); otherwise the
block counter is incremented, the window is advanced by
update_segments, and the motion times are the freshly generated guess
times (guessTimes, produced by get_init_guess inside update_segments). -/
def solve_step (rooms : List Room) (k : ℕ) (curr : Vec3)
    (optTimes guessTimes : List ℚ) (st : SchedState) : Option SchedState :=
  match st.segments with
  | [] => none
  | seg0 :: _ =>
    if check_segments curr seg0.end_ then
      some { st with motion_times := optTimes }
    else
      (update_segments rooms (st.n_current_block + 1) k st.segments).map
        (fun segs2 =>
          { n_current_block := st.n_current_block + 1, segments := segs2,
            motion_times := guessTimes })

/-- stop_criterium: Python returns True when the last windowed segment
ends at the goal and the local problem's stop criterion holds, False
when the last segment does not end at the goal, and falls off the end
of the function (None) otherwise; none models the missing return. -/
def stop_criterium (lastEnd goal : Vec3) (localStop : Bool) : Option Bool :=
  if lastEnd = goal then
    if localStop then some true else none
  else
    some false

/-- Sum of consecutive differences of a coordinate list: the l_x / l_y /
l_z accumulation loop of get_init_guess_new_segment (it telescopes to
the net displacement, not the travelled length). -/
def deltaSum : List ℚ → ℚ
  | a :: b :: rest => (b - a) + deltaSum (b :: rest)
  | _ => 0

/-- The time-vector loop body: starting from the previous accumulated
value, each consecutive coordinate pair appends prev + (b - a) / l when
l is nonzero and 0 otherwise. -/
def timeVecGo (l prev : ℚ) : List ℚ → List ℚ
  | a :: b :: rest =>
    let nxt := if l ≠ 0 then prev + (b - a) / l else 0
    nxt :: timeVecGo l nxt (b :: rest)
  | _ => []

/-- The per-axis time vector: a leading 0 followed by the loop values. -/
def timeVec (l : ℚ) (coords : List ℚ) : List ℚ :=
  0 :: timeVecGo l 0 coords

/-- Clamp values within 1e-5 of 1 exactly to 1 (the three clamping
loops of get_init_guess_new_segment). -/
def clamp1 (ts : List ℚ) : List ℚ :=
  ts.map (fun t => if 1 - t < 1 / 100000 then 1 else t)

/-- Python's all(t == 0 for t in ts). -/
def allZero (ts : List ℚ) : Bool :=
  ts.all (fun t => t == 0)

/-- Linear interpolation scan over the remaining breakpoints; when t
lies beyond the last breakpoint the scipy fill value 1.0 is returned. -/
def interpGo (t0 v0 : ℚ) (ts vs : List ℚ) (t : ℚ) : ℚ :=
  match ts, vs with
  | t1 :: trest, v1 :: vrest =>
    if t ≤ t1 then v0 + (v1 - v0) * (t - t0) / (t1 - t0)
    else interpGo t1 v1 trest vrest t
  | _, _ => 1

/-- scipy interp1d(ts, vs, kind=linear, bounds_error=False,
fill_value=1.), for sorted breakpoints: piecewise-linear inside the
domain, 1.0 outside it. -/
def interp (ts vs : List ℚ) (t : ℚ) : ℚ :=
  match ts, vs with
  | t0 :: trest, v0 :: vrest => if t < t0 then 1 else interpGo t0 v0 trest vrest t
  | _, _ => 1

/-- np.c_[fx(greville), fy(greville), fz(greville)]: one coefficient
row per characteristic abscissa. -/
def buildRows (grev tx xs ty ys tz zs : List ℚ) : List Vec3 :=
  grev.map (fun g => ⟨interp tx xs g, interp ty ys g, interp tz zs g⟩)

/-- The two trailing assignments init_guess[-3] = init_guess[-1] and
init_guess[-4] = init_guess[-1]: rows at positions length - 3 and
length - 4 are overwritten with the final row. -/
def forceEnd (rows : List Vec3) : List Vec3 :=
  let lastRow := rows.getD (rows.length - 1) ⟨0, 0, 0⟩
  (rows.set (rows.length - 3) lastRow).set (rows.length - 4) lastRow

/-- The parameter-borrowing step: an all-zero time vector is replaced
by the first of the two other (current) time vectors that is not
all-zero; a non-zero time vector is kept. -/
def borrowTime (t other1 other2 : List ℚ) : List ℚ :=
  if allZero t then (if !allZero other1 then other1 else other2) else t

/-- Core of get_init_guess_new_segment, starting from the sampled
centerline points: per-axis net-displacement sums, time vectors with
clamping, the degenerate-segment RuntimeError, parameter borrowing for
zero-displacement axes, interpolation at the basis's characteristic
abscissae grev, the trailing row assignments, and the motion-time
estimate.  Negative Python indexing needs at least 4 rows; fewer is an
IndexError, modelled as the second error case. -/
def get_init_guess_new_segment_core (sqrtF : ℚ → ℚ) (grev : List ℚ)
    (maxVel : ℚ) (points : List Vec3) : Except String (List Vec3 × ℚ) :=
  let xs := points.map Vec3.x
  let ys := points.map Vec3.y
  let zs := points.map Vec3.z
  let l_x := deltaSum xs
  let l_y := deltaSum ys
  let l_z := deltaSum zs
  let tx := clamp1 (timeVec l_x xs)
  let ty := clamp1 (timeVec l_y ys)
  let tz := clamp1 (timeVec l_z zs)
  if allZero tx && allZero ty && allZero tz then
    Except.error "Trying to make a prediction for goal = current position."
  else
    let tx2 := borrowTime tx ty tz
    let ty2 := borrowTime ty tx2 tz
    let tz2 := borrowTime tz tx2 ty2
    let rows := buildRows grev tx2 xs ty2 ys tz2 zs
    if 4 ≤ rows.length then
      Except.ok (forceEnd rows,
        sqrtF (l_x ^ 2 + l_y ^ 2 + l_z ^ 2) / (maxVel * (1/2)))
    else
      Except.error "index out of bounds"

/-- np.linspace(a, b, num): num evenly spaced samples, endpoints
included. -/
def linspace (a b : ℚ) (num : ℕ) : List ℚ :=
  (List.range num).map (fun i => a + (b - a) * i / ((num : ℚ) - 1))

/-- The angle unwrapping of the arc branch: CW adds 2*pi to the start
angle when start < end, CCW adds 2*pi to the end angle when
start > end. -/
def arc_angles (atan2F : ℚ → ℚ → ℚ) (piQ px py : ℚ) (s e : Vec3)
    (dir : Direction) : ℚ × ℚ :=
  let sa := atan2F (s.y - py) (s.x - px)
  let ea := atan2F (e.y - py) (e.x - px)
  match dir with
  | .CW => (if sa < ea then sa + 2 * piQ else sa, ea)
  | .CCW => (sa, if sa > ea then ea + 2 * piQ else ea)

/-- The sampled centerline of a segment: the two endpoints for a
rectangle (line) segment; 50 uniformly spaced samples of the mean-radius
arc, with zero z, for a ring (arc) segment. -/
def segment_points (cosF sinF : ℚ → ℚ) (atan2F : ℚ → ℚ → ℚ) (piQ : ℚ)
    (segment : Segment) : List Vec3 :=
  match segment.border.shape with
  | .rectangle _ _ _ => [segment.start, segment.end_]
  | .ring rin rout _ _ dir =>
    let px := segment.border.pose.getD 0 0
    let py := segment.border.pose.getD 1 0
    let angles := arc_angles atan2F piQ px py segment.start segment.end_ dir
    let radius := (rin + rout) * (1/2)
    (linspace angles.1 angles.2 50).map
      (fun a => ⟨px + radius * cosF a, py + radius * sinF a, 0⟩)

/-- get_init_guess_new_segment: centerline sampling followed by the
core guess computation. -/
def get_init_guess_new_segment (sqrtF cosF sinF : ℚ → ℚ)
    (atan2F : ℚ → ℚ → ℚ) (piQ : ℚ) (grev : List ℚ) (maxVel : ℚ)
    (segment : Segment) : Except String (List Vec3 × ℚ) :=
  get_init_guess_new_segment_core sqrtF grev maxVel
    (segment_points cosF sinF atan2F piQ segment)

/-- The vehicle's maximum speed as read by get_init_guess_new_segment:
vmax when the attribute exists, otherwise the averaged per-axis bound. -/
def max_vel (vmaxAttr : Option ℚ) (vxmax vymax vzmax : ℚ) : ℚ :=
  match vmaxAttr with
  | some v => v
  | none => (vxmax + vymax + vzmax) * (1/2)

/-- Modelled from the spec: the total Euclidean path length of a
sampled centerline, the sum of the Euclidean distances of consecutive
samples (spec section 4.3: motion-time estimate = total Euclidean path
length over half of the maximum speed). -/
def spec_path_length (sqrtF : ℚ → ℚ) : List Vec3 → ℚ
  | a :: b :: rest =>
    sqrtF ((b.x - a.x) ^ 2 + (b.y - a.y) ^ 2 + (b.z - a.z) ^ 2) +
      spec_path_length sqrtF (b :: rest)
  | _ => 0

/-- Dot product of two rational vectors. -/
def dotQ (a b : List ℚ) : ℚ :=
  (List.zipWith (fun u v => u * v) a b).sum

/-- Finds the first row whose leading entry is nonzero, returning it
and the remaining rows; none when every leading entry vanishes. -/
def findPivotRow : List (List ℚ) → Option (List ℚ × List (List ℚ))
  | [] => none
  | r :: rest =>
    if r.headD 0 ≠ 0 then some (r, rest)
    else
      match findPivotRow rest with
      | some (p, rest2) => some (p, r :: rest2)
      | none => none

/-- Eliminates the leading coefficient of row r against pivot row p and
drops the (now zero) leading column. -/
def elimRow (p r : List ℚ) : List ℚ :=
  let f := r.headD 0 / p.headD 0
  (List.zipWith (fun ri pi => ri - f * pi) r p).drop 1

/-- Gaussian elimination with back substitution on augmented rows
(coefficients followed by the right-hand side); a missing pivot means
the system is singular. -/
def gaussAux : ℕ → List (List ℚ) → Except String (List ℚ)
  | 0, _ => Except.ok []
  | n + 1, rows =>
    match findPivotRow rows with
    | none => Except.error "singular matrix"
    | some (p, rest) =>
      match gaussAux n (rest.map (elimRow p)) with
      | Except.error e => Except.error e
      | Except.ok xs =>
        Except.ok (((p.getLastD 0 - dotQ ((p.drop 1).dropLast) xs) / p.headD 0) :: xs)

/-- scipy.linalg.solve on exact rationals: solves A x = b, raising
LinAlgError (modelled as the error case) when the matrix is singular.
The library itself is an external collaborator; what matters for the
claims is that the exception propagates. -/
def la_solve (A : List (List ℚ)) (b : List ℚ) : Except String (List ℚ) :=
  gaussAux A.length (List.zipWith (fun row bi => row ++ [bi]) A b)

/-- The per-axis loop of get_init_guess_combined_segment: solve the
re-projection system of every axis in order, propagating the first
linear-algebra failure unchanged (the source wraps la.solve in no
try/except). -/
def solveAxes : List (List (List ℚ) × List ℚ) → Except String (List (List ℚ))
  | [] => Except.ok []
  | (A, b) :: rest =>
    match la_solve A b with
    | Except.error e => Except.error e
    | Except.ok c =>
      match solveAxes rest with
      | Except.error e => Except.error e
      | Except.ok cs => Except.ok (c :: cs)

/-- get_init_guess_combined_segment, from the assembled per-axis
re-projection systems onward: the merged motion time is time1 + time2
and the new coefficients come from the per-axis solves; any singular
system aborts the whole call. -/
def get_init_guess_combined_segment (axes : List (List (List ℚ) × List ℚ))
    (time1 time2 : ℚ) : Except String (List (List ℚ) × ℚ) :=
  match solveAxes axes with
  | Except.error e => Except.error e
  | Except.ok coeffs => Except.ok (coeffs, time1 + time2)

/-- The warm-start path of get_init_guess for a two-segment window: the
combined-segment guess for the new first segment followed by the
centerline guess of the last segment; get_init_guess installs no
handler, so a stitching failure propagates to the scheduler. -/
def get_init_guess_warm (axes : List (List (List ℚ) × List ℚ))
    (time1 time2 : ℚ) (lastGuess : List Vec3 × ℚ) :
    Except String (List (List (List ℚ) × List Vec3) × List ℚ) :=
  match get_init_guess_combined_segment axes time1 time2 with
  | Except.error e => Except.error e
  | Except.ok (spl, mt) => Except.ok ([(spl, lastGuess.1)], [mt, lastGuess.2])

/-- A concrete horizontal-line room used by the concrete theorems. -/
def exRoom0 : Room :=
  { shape := .rectangle 1 (1/10) 0, pose := [1/2, 0, 0, 0, 0, 0],
    position := [1/2, 0], start := ⟨0, 0, 0⟩, end_ := ⟨1, 0, 0⟩ }

/-- A concrete vertical-line room used by the concrete theorems. -/
def exRoom1 : Room :=
  { shape := .rectangle 1 (1/10) 0, pose := [1, 1/2, 0, 0, 0, 0],
    position := [1, 1/2], start := ⟨1, 0, 0⟩, end_ := ⟨1, 1, 0⟩ }

/-- A two-corridor program. -/
def exRooms2 : List Room := [exRoom0, exRoom1]

/-- Characteristic abscissae of a clamped cubic basis on [0, 1] with
interior knots 1/3 and 2/3 (knot averages), used as a concrete
greville-point list. -/
def exGrev6 : List ℚ := [0, 1/9, 1/3, 2/3, 8/9, 1]

/-- The sampled centerline of a unit line segment along the x axis. -/
def exLinePts : List Vec3 := [⟨0, 0, 0⟩, ⟨1, 0, 0⟩]

/-- A sampled centerline that bends: net displacement (6, 0, 0) but
travelled length 10. -/
def exBentPts : List Vec3 := [⟨0, 0, 0⟩, ⟨3, 4, 0⟩, ⟨6, 0, 0⟩]

/-- Short greville list for the bent-centerline evaluation. -/
def exGrev4 : List ℚ := [0, 1/3, 2/3, 1]

/-- The coefficient rows produced for exLinePts with exGrev6 and
maximum speed 4 (evaluations of the centerline interpolants at the
abscissae, with rows 2 and 3 overwritten by the final row). -/
def exRowsC6 : List Vec3 :=
  [⟨0, 0, 0⟩, ⟨1/9, 0, 0⟩, ⟨1, 0, 0⟩, ⟨1, 0, 0⟩, ⟨8/9, 0, 0⟩, ⟨1, 0, 0⟩]

/-- The coefficient rows produced for exBentPts with exGrev4 and
maximum speed 4. -/
def exRowsC7 : List Vec3 :=
  [⟨6, 0, 0⟩, ⟨6, 0, 0⟩, ⟨4, 8/3, 0⟩, ⟨6, 0, 0⟩]

theorem check_segments_eq_false_iff (c e : Vec3) :
    check_segments c e = false ↔ c = e := by
  cases c
  cases e
  simp [check_segments, Vec3.mk.injEq, and_assoc]

theorem check_segments_eq_true_iff (c e : Vec3) :
    check_segments c e = true ↔ c ≠ e := by
  constructor
  · intro h he
    rw [(check_segments_eq_false_iff c e).mpr he] at h
    exact Bool.false_ne_true h
  · intro hne
    cases hb : check_segments c e with
    | true => rfl
    | false => exact absurd ((check_segments_eq_false_iff c e).mp hb) hne

theorem timeVecGo_zero_eq_zero :
    ∀ (prev : ℚ) (coords : List ℚ) (t : ℚ), t ∈ timeVecGo 0 prev coords → t = 0
  | prev, [], t, h => by simp [timeVecGo] at h
  | prev, [a], t, h => by simp [timeVecGo] at h
  | prev, a :: b :: rest, t, h => by
    simp only [timeVecGo, ne_eq, not_true_eq_false, if_false, List.mem_cons] at h
    rcases h with h | h
    · exact h
    · exact timeVecGo_zero_eq_zero 0 (b :: rest) t h

theorem allZero_clamp1_timeVec_zero (coords : List ℚ) :
    allZero (clamp1 (timeVec 0 coords)) = true := by
  rw [allZero, List.all_eq_true]
  intro t ht
  rw [clamp1, List.mem_map] at ht
  obtain ⟨u, hu, rfl⟩ := ht
  have hu0 : u = 0 := by
    rcases List.mem_cons.mp hu with h | h
    · exact h
    · exact timeVecGo_zero_eq_zero 0 coords u h
  subst hu0
  norm_num

theorem core_degenerate (sqrtF : ℚ → ℚ) (grev : List ℚ) (maxVel : ℚ)
    (points : List Vec3)
    (hx : deltaSum (points.map Vec3.x) = 0)
    (hy : deltaSum (points.map Vec3.y) = 0)
    (hz : deltaSum (points.map Vec3.z) = 0) :
    get_init_guess_new_segment_core sqrtF grev maxVel points =
      Except.error "Trying to make a prediction for goal = current position." := by
  simp only [get_init_guess_new_segment_core]
  rw [hx, hy, hz, allZero_clamp1_timeVec_zero, allZero_clamp1_timeVec_zero,
    allZero_clamp1_timeVec_zero]
  simp

theorem core_ok_inv (sqrtF : ℚ → ℚ) (grev : List ℚ) (maxVel : ℚ)
    (points : List Vec3) (rows : List Vec3) (mt : ℚ)
    (h : get_init_guess_new_segment_core sqrtF grev maxVel points =
      Except.ok (rows, mt)) :
    (∃ rows0 : List Vec3, rows0.length = grev.length ∧ 4 ≤ rows0.length ∧
      rows = forceEnd rows0) ∧
    mt = sqrtF (deltaSum (points.map Vec3.x) ^ 2 + deltaSum (points.map Vec3.y) ^ 2 +
      deltaSum (points.map Vec3.z) ^ 2) / (maxVel * (1/2)) := by
  simp only [get_init_guess_new_segment_core] at h
  split at h
  · exact absurd h (by simp)
  · split at h
    · rename_i hc2
      rw [Except.ok.injEq, Prod.mk.injEq] at h
      obtain ⟨h1, h2⟩ := h
      exact ⟨⟨_, by simp [buildRows], hc2, h1.symm⟩, h2.symm⟩
    · exact absurd h (by simp)

theorem forceEnd_length (rows : List Vec3) :
    (forceEnd rows).length = rows.length := by
  simp [forceEnd]

theorem forceEnd_getD (rows : List Vec3) (h : 4 ≤ rows.length) :
    (forceEnd rows).getD (rows.length - 3) ⟨0, 0, 0⟩ =
        rows.getD (rows.length - 1) ⟨0, 0, 0⟩ ∧
      (forceEnd rows).getD (rows.length - 4) ⟨0, 0, 0⟩ =
        rows.getD (rows.length - 1) ⟨0, 0, 0⟩ ∧
      (forceEnd rows).getD (rows.length - 1) ⟨0, 0, 0⟩ =
        rows.getD (rows.length - 1) ⟨0, 0, 0⟩ := by
  have h3 : rows.length - 3 < rows.length := by omega
  have h4 : rows.length - 4 < (rows.set (rows.length - 3)
      (rows.getD (rows.length - 1) ⟨0, 0, 0⟩)).length := by
    rw [List.length_set]; omega
  have hne43 : rows.length - 4 ≠ rows.length - 3 := by omega
  have hne41 : rows.length - 4 ≠ rows.length - 1 := by omega
  have hne31 : rows.length - 3 ≠ rows.length - 1 := by omega
  refine ⟨?_, ?_, ?_⟩
  · rw [forceEnd, List.getD_eq_getElem?_getD, List.getElem?_set_ne hne43,
      List.getElem?_set_eq_of_lt _ h3]
    rfl
  · rw [forceEnd, List.getD_eq_getElem?_getD, List.getElem?_set_eq_of_lt _ h4]
    rfl
  · rw [forceEnd, List.getD_eq_getElem?_getD, List.getElem?_set_ne hne41,
      List.getElem?_set_ne hne31, ← List.getD_eq_getElem?_getD]

theorem deltaSum_cons (a : ℚ) (l : List ℚ) :
    deltaSum (a :: l) = l.getLastD a - a := by
  induction l generalizing a with
  | nil => simp [deltaSum]
  | cons b t ih =>
    simp only [deltaSum, List.getLastD_cons]
    rw [ih b]
    ring

theorem getLastD_map (f : Vec3 → ℚ) (l : List Vec3) (d : Vec3) :
    (l.map f).getLastD (f d) = f (l.getLastD d) := by
  induction l generalizing d with
  | nil => simp
  | cons a t ih => simp only [List.map_cons, List.getLastD_cons, ih a]

theorem solveAxes_ok_mem :
    ∀ (axes : List (List (List ℚ) × List ℚ)) (cs : List (List ℚ)),
      solveAxes axes = Except.ok cs →
      ∀ p ∈ axes, ∃ c, la_solve p.1 p.2 = Except.ok c := by
  intro axes
  induction axes with
  | nil =>
    intro cs _ p hp
    simp at hp
  | cons a rest ih =>
    intro cs h p hp
    obtain ⟨A, b⟩ := a
    rw [solveAxes] at h
    cases hA : la_solve A b with
    | error e => rw [hA] at h; exact absurd h (by simp)
    | ok c =>
      rw [hA] at h
      cases hrest : solveAxes rest with
      | error e => rw [hrest] at h; exact absurd h (by simp)
      | ok cs2 =>
        rcases List.mem_cons.mp hp with hpa | hpr
        · exact ⟨c, by rw [hpa]; exact hA⟩
        · exact ih cs2 hrest p hpr

/-- Claim C8: for every ARC MotionBlock, independent of its direction
(CW or CCW), the corridor builder produces an annulus centered at the
block's center whose outer radius minus inner radius equals twice the
tolerance (inner = radius - tolerance, outer = radius + tolerance);
the direction tag is preserved. -/
theorem arc_room_annulus_radii_and_center (sqrtF : ℚ → ℚ)
    (atan2F : ℚ → ℚ → ℚ) (tol : ℚ) (cw : Bool) (s e c : Vec3) (r : ℚ) :
    (get_environment_room sqrtF atan2F tol (.arc cw s e c r)).shape.ringRadii =
      some (r - tol, r + tol) ∧
    (((get_environment_room sqrtF atan2F tol (.arc cw s e c r)).shape.ringRadii.getD
        (0, 0)).2 -
      ((get_environment_room sqrtF atan2F tol (.arc cw s e c r)).shape.ringRadii.getD
        (0, 0)).1) = 2 * tol ∧
    (get_environment_room sqrtF atan2F tol (.arc cw s e c r)).pose =
      [c.x, c.y, c.z, 0, 0, 0] ∧
    (get_environment_room sqrtF atan2F tol (.arc true s e c r)).shape.ringRadii =
      (get_environment_room sqrtF atan2F tol (.arc false s e c r)).shape.ringRadii ∧
    (get_environment_room sqrtF atan2F tol (.arc true s e c r)).pose =
      (get_environment_room sqrtF atan2F tol (.arc false s e c r)).pose ∧
    (get_environment_room sqrtF atan2F tol
        (.arc true s e c r)).shape.ringDirection = some Direction.CW ∧
    (get_environment_room sqrtF atan2F tol
        (.arc false s e c r)).shape.ringDirection = some Direction.CCW := by
  refine ⟨rfl, ?_, rfl, rfl, rfl, rfl, rfl⟩
  show (r + tol) - (r - tol) = 2 * tol
  ring

/-- Claim C10: the scheduler's stop criterion is three-valued: some
true when the last windowed segment ends at the goal and the local
problem's stop criterion holds, some false when the last segment's end
differs from the goal, and none (Python None, not False) when the last
segment ends at the goal but the local criterion does not hold. -/
theorem stop_criterium_three_valued (lastEnd goal : Vec3) (localStop : Bool) :
    (lastEnd = goal → localStop = true →
      stop_criterium lastEnd goal localStop = some true) ∧
    (lastEnd ≠ goal → stop_criterium lastEnd goal localStop = some false) ∧
    (lastEnd = goal → localStop = false →
      stop_criterium lastEnd goal localStop = none) := by
  refine ⟨fun he hb => ?_, fun hne => ?_, fun he hb => ?_⟩
  · subst hb; simp [stop_criterium, he]
  · simp [stop_criterium, hne]
  · subst hb; simp [stop_criterium, he]

/-- Witness for C10 at concrete inputs: all three return values occur. -/
theorem stop_criterium_three_valued_witness :
    stop_criterium ⟨0, 0, 0⟩ ⟨0, 0, 0⟩ true = some true ∧
    stop_criterium ⟨0, 0, 0⟩ ⟨1, 0, 0⟩ true = some false ∧
    stop_criterium ⟨0, 0, 0⟩ ⟨0, 0, 0⟩ false = none :=
  ⟨(stop_criterium_three_valued ⟨0, 0, 0⟩ ⟨0, 0, 0⟩ true).1 rfl rfl,
   (stop_criterium_three_valued ⟨0, 0, 0⟩ ⟨1, 0, 0⟩ true).2.1 (by decide),
   (stop_criterium_three_valued ⟨0, 0, 0⟩ ⟨0, 0, 0⟩ false).2.2 rfl rfl⟩

/-- Claim C9: the centerline guess generator is deterministic; two
calls with the same segment, the same characteristic abscissae and the
same speed bound (and the same numeric helpers) return identical
coefficient arrays and identical motion-time estimates. -/
theorem centerline_guess_deterministic (sqrtF cosF sinF : ℚ → ℚ)
    (atan2F : ℚ → ℚ → ℚ) (piQ : ℚ) (grev1 grev2 : List ℚ)
    (maxVel1 maxVel2 : ℚ) (seg1 seg2 : Segment)
    (hg : grev1 = grev2) (hv : maxVel1 = maxVel2) (hs : seg1 = seg2) :
    get_init_guess_new_segment sqrtF cosF sinF atan2F piQ grev1 maxVel1 seg1 =
      get_init_guess_new_segment sqrtF cosF sinF atan2F piQ grev2 maxVel2 seg2 := by
  subst hg; subst hv; subst hs; rfl

/-- Witness for C9: two calls on a concrete line segment coincide. -/
theorem centerline_guess_deterministic_witness :
    get_init_guess_new_segment sqrtQ sqrtQ sqrtQ (fun _ _ => 0) 0 exGrev6 4
        (create_segment 0 exRoom0) =
      get_init_guess_new_segment sqrtQ sqrtQ sqrtQ (fun _ _ => 0) 0 exGrev6 4
        (create_segment 0 exRoom0) :=
  centerline_guess_deterministic sqrtQ sqrtQ sqrtQ (fun _ _ => 0) 0 exGrev6
    exGrev6 4 4 (create_segment 0 exRoom0) (create_segment 0 exRoom0) rfl rfl rfl

/-- Claim C5: a segment whose entry point equals its exit point (first
conjunct: any line segment with coinciding endpoints), and more
generally any sampled centerline all of whose axes have zero net
displacement (second conjunct), makes the centerline guess generator
fail with the degenerate-prediction RuntimeError instead of returning
a guess. -/
theorem degenerate_segment_guess_raises (sqrtF cosF sinF : ℚ → ℚ)
    (atan2F : ℚ → ℚ → ℚ) (piQ : ℚ) (grev : List ℚ) (maxVel : ℚ)
    (w hgt o : ℚ) (pose : List ℚ) (orient : ℚ) (lims : Option (List ℚ))
    (num : ℕ) (s : Vec3) (points : List Vec3)
    (hx : deltaSum (points.map Vec3.x) = 0)
    (hy : deltaSum (points.map Vec3.y) = 0)
    (hz : deltaSum (points.map Vec3.z) = 0) :
    get_init_guess_new_segment sqrtF cosF sinF atan2F piQ grev maxVel
        ⟨⟨.rectangle w hgt o, pose, orient, lims⟩, num, s, s⟩ =
      Except.error "Trying to make a prediction for goal = current position." ∧
    get_init_guess_new_segment_core sqrtF grev maxVel points =
      Except.error "Trying to make a prediction for goal = current position." := by
  constructor
  · show get_init_guess_new_segment_core sqrtF grev maxVel [s, s] = _
    exact core_degenerate sqrtF grev maxVel [s, s] (by simp [deltaSum])
      (by simp [deltaSum]) (by simp [deltaSum])
  · exact core_degenerate sqrtF grev maxVel points hx hy hz

/-- Witness for C5: a concrete coincident-endpoint line segment and a
concrete zero-net-displacement point list both produce the error. -/
theorem degenerate_segment_guess_raises_witness :
    get_init_guess_new_segment sqrtQ sqrtQ sqrtQ (fun _ _ => 0) 0 exGrev6 4
        ⟨⟨.rectangle 1 1 0, [], 0, none⟩, 0, ⟨2, 3, 0⟩, ⟨2, 3, 0⟩⟩ =
      Except.error "Trying to make a prediction for goal = current position." ∧
    get_init_guess_new_segment_core sqrtQ exGrev6 4 [⟨5, 5, 5⟩, ⟨5, 5, 5⟩] =
      Except.error "Trying to make a prediction for goal = current position." :=
  degenerate_segment_guess_raises sqrtQ sqrtQ sqrtQ (fun _ _ => 0) 0 exGrev6 4
    1 1 0 [] 0 none 0 ⟨2, 3, 0⟩ [⟨5, 5, 5⟩, ⟨5, 5, 5⟩]
    (by simp [deltaSum]) (by simp [deltaSum]) (by simp [deltaSum])

/-- Claim C6 (amended): for every successful centerline guess, the
coefficient rows at positions length - 3 and length - 4 (the third and
fourth from the last) are forced equal to the final coefficient row;
the second-to-last row is left at its interpolated value. -/
theorem guess_forces_third_and_fourth_from_last (sqrtF : ℚ → ℚ)
    (grev : List ℚ) (maxVel : ℚ) (points : List Vec3) (rows : List Vec3)
    (mt : ℚ)
    (h : get_init_guess_new_segment_core sqrtF grev maxVel points =
      Except.ok (rows, mt)) :
    rows.getD (rows.length - 3) ⟨0, 0, 0⟩ =
        rows.getD (rows.length - 1) ⟨0, 0, 0⟩ ∧
      rows.getD (rows.length - 4) ⟨0, 0, 0⟩ =
        rows.getD (rows.length - 1) ⟨0, 0, 0⟩ := by
  obtain ⟨⟨rows0, hlen, h4, hrows⟩, -⟩ :=
    core_ok_inv sqrtF grev maxVel points rows mt h
  subst hrows
  obtain ⟨hA, hB, hC⟩ := forceEnd_getD rows0 h4
  rw [forceEnd_length, hA, hB, hC]
  exact ⟨rfl, rfl⟩

/-- Witness for C6 on the concrete line-segment run. -/
theorem guess_forces_third_and_fourth_from_last_witness :
    exRowsC6.getD (exRowsC6.length - 3) ⟨0, 0, 0⟩ =
        exRowsC6.getD (exRowsC6.length - 1) ⟨0, 0, 0⟩ ∧
      exRowsC6.getD (exRowsC6.length - 4) ⟨0, 0, 0⟩ =
        exRowsC6.getD (exRowsC6.length - 1) ⟨0, 0, 0⟩ :=
  guess_forces_third_and_fourth_from_last sqrtQ exGrev6 4 exLinePts exRowsC6
    (1/2) (by with_unfolding_all rfl)

/-- Counterexample to C6 as stated: on a concrete line segment the
second-to-last coefficient row is not equal to the final row, so the
last two coefficients are not both forced to the final coefficient
(only the rows at positions length - 3 and length - 4 are). -/
theorem guess_last_two_not_forced_counterexample :
    get_init_guess_new_segment_core sqrtQ exGrev6 4 exLinePts =
      Except.ok (exRowsC6, 1/2) ∧
    exRowsC6.getD (exRowsC6.length - 2) ⟨0, 0, 0⟩ ≠
      exRowsC6.getD (exRowsC6.length - 1) ⟨0, 0, 0⟩ :=
  ⟨by with_unfolding_all rfl, by with_unfolding_all decide⟩

/-- Claim C7 (amended): for every successful centerline guess over a
sampled centerline, the motion-time estimate equals the Euclidean
distance between the first and the last sample (the net displacement,
for an arc the chord) divided by half the maximum speed; for a
two-sample (line) centerline this coincides with the spec's total path
length divided by half the maximum speed. -/
theorem motion_time_is_net_displacement_over_half_vmax (sqrtF : ℚ → ℚ)
    (grev : List ℚ) (maxVel : ℚ) (p0 : Vec3) (rest : List Vec3)
    (rows : List Vec3) (mt : ℚ)
    (h : get_init_guess_new_segment_core sqrtF grev maxVel (p0 :: rest) =
      Except.ok (rows, mt)) :
    mt = sqrtF (((rest.getLastD p0).x - p0.x) ^ 2 +
        ((rest.getLastD p0).y - p0.y) ^ 2 +
        ((rest.getLastD p0).z - p0.z) ^ 2) / (maxVel * (1/2)) ∧
    (∀ a b : Vec3, spec_path_length sqrtF [a, b] =
      sqrtF ((b.x - a.x) ^ 2 + (b.y - a.y) ^ 2 + (b.z - a.z) ^ 2)) := by
  constructor
  · obtain ⟨-, hmt⟩ := core_ok_inv sqrtF grev maxVel (p0 :: rest) rows mt h
    have ex : deltaSum ((p0 :: rest).map Vec3.x) = (rest.getLastD p0).x - p0.x := by
      rw [List.map_cons, deltaSum_cons, getLastD_map]
    have ey : deltaSum ((p0 :: rest).map Vec3.y) = (rest.getLastD p0).y - p0.y := by
      rw [List.map_cons, deltaSum_cons, getLastD_map]
    have ez : deltaSum ((p0 :: rest).map Vec3.z) = (rest.getLastD p0).z - p0.z := by
      rw [List.map_cons, deltaSum_cons, getLastD_map]
    rw [hmt, ex, ey, ez]
  · intro a b
    simp [spec_path_length]

/-- Witness for C7 on the concrete line-segment run: the estimate is
the unit displacement over half the speed bound 4. -/
theorem motion_time_is_net_displacement_over_half_vmax_witness :
    ((1 : ℚ)/2) = sqrtQ ((((([⟨1, 0, 0⟩] : List Vec3).getLastD ⟨0, 0, 0⟩).x -
        (⟨0, 0, 0⟩ : Vec3).x) ^ 2 +
        ((([⟨1, 0, 0⟩] : List Vec3).getLastD ⟨0, 0, 0⟩).y -
        (⟨0, 0, 0⟩ : Vec3).y) ^ 2 +
        ((([⟨1, 0, 0⟩] : List Vec3).getLastD ⟨0, 0, 0⟩).z -
        (⟨0, 0, 0⟩ : Vec3).z) ^ 2)) / (4 * (1/2)) ∧
    (∀ a b : Vec3, spec_path_length sqrtQ [a, b] =
      sqrtQ ((b.x - a.x) ^ 2 + (b.y - a.y) ^ 2 + (b.z - a.z) ^ 2)) :=
  motion_time_is_net_displacement_over_half_vmax sqrtQ exGrev6 4 ⟨0, 0, 0⟩
    [⟨1, 0, 0⟩] exRowsC6 (1/2) (by with_unfolding_all rfl)

/-- Counterexample to C7 as stated: on a bent sampled centerline the
code's motion time is 3 (chord 6 over speed 2) while the total path
length 10 over the same speed gives 5. -/
theorem motion_time_not_path_length_counterexample :
    get_init_guess_new_segment_core sqrtQ exGrev4 4 exBentPts =
      Except.ok (exRowsC7, 3) ∧
    spec_path_length sqrtQ exBentPts / (4 * (1/2)) = 5 ∧
    (3 : ℚ) ≠ 5 :=
  ⟨by with_unfolding_all rfl, by with_unfolding_all rfl, by norm_num⟩

/-- Claim C1 (amended): one scheduler iteration advances the window
(drops window 0, appends the corridor at the incremented index, and
increments the block counter by one) exactly when the live tool state
IS componentwise equal to the exit point of window 0; when the state
differs from that exit point the window and counter are unchanged and
only the motion times are refreshed from the optimizer. -/
theorem solve_step_advances_iff_reached (rooms : List Room) (k : ℕ)
    (curr : Vec3) (optTimes guessTimes mts : List ℚ) (n : ℕ)
    (seg0 : Segment) (rest : List Segment) :
    (curr ≠ seg0.end_ →
      solve_step rooms k curr optTimes guessTimes ⟨n, seg0 :: rest, mts⟩ =
        some ⟨n, seg0 :: rest, optTimes⟩) ∧
    (∀ r : Room, curr = seg0.end_ → rooms[(n + 1) + (k - 1)]? = some r →
      solve_step rooms k curr optTimes guessTimes ⟨n, seg0 :: rest, mts⟩ =
        some ⟨n + 1, rest ++ [create_segment (n + 1) r], guessTimes⟩) ∧
    (curr = seg0.end_ → rooms[(n + 1) + (k - 1)]? = none →
      solve_step rooms k curr optTimes guessTimes ⟨n, seg0 :: rest, mts⟩ =
        none) := by
  refine ⟨fun hne => ?_, fun r he hr => ?_, fun he hr => ?_⟩
  · have ht : check_segments curr seg0.end_ = true :=
      (check_segments_eq_true_iff curr seg0.end_).mpr hne
    simp [solve_step, ht]
  · have hf : check_segments curr seg0.end_ = false :=
      (check_segments_eq_false_iff curr seg0.end_).mpr he
    simp [solve_step, hf, update_segments, hr]
  · have hf : check_segments curr seg0.end_ = false :=
      (check_segments_eq_false_iff curr seg0.end_).mpr he
    simp [solve_step, hf, update_segments, hr]

/-- Witness for C1: with two corridors and look-ahead 1, a state off
the first exit point only refreshes the motion times, and a state on
the first exit point advances to the second corridor. -/
theorem solve_step_advances_iff_reached_witness :
    solve_step exRooms2 1 ⟨2, 0, 0⟩ [5] [7]
        ⟨0, [create_segment 0 exRoom0], [1]⟩ =
      some ⟨0, [create_segment 0 exRoom0], [5]⟩ ∧
    solve_step exRooms2 1 ⟨1, 0, 0⟩ [5] [7]
        ⟨0, [create_segment 0 exRoom0], [1]⟩ =
      some ⟨1, [create_segment 1 exRoom1], [7]⟩ :=
  ⟨(solve_step_advances_iff_reached exRooms2 1 ⟨2, 0, 0⟩ [5] [7] [1] 0
      (create_segment 0 exRoom0) []).1 (by decide),
   (solve_step_advances_iff_reached exRooms2 1 ⟨1, 0, 0⟩ [5] [7] [1] 0
      (create_segment 0 exRoom0) []).2.1 exRoom1 (by decide) rfl⟩

/-- Counterexample to C1 as stated: the live tool state differs from
the exit point of window 0, yet the iteration does NOT advance: the
block counter and the window are unchanged and only the motion times
are refreshed. -/
theorem solve_step_no_advance_when_state_differs :
    solve_step exRooms2 1 ⟨0, 0, 0⟩ [5] [7]
        ⟨0, [create_segment 0 exRoom0], [1]⟩ =
      some ⟨0, [create_segment 0 exRoom0], [5]⟩ ∧
    (⟨0, 0, 0⟩ : Vec3) ≠ (create_segment 0 exRoom0).end_ :=
  ⟨rfl, by decide⟩

/-- Claim C2 (amended): every created segment stores as its number the
scheduler's block counter at creation time (the index of the window's
first corridor), and the window is a contiguous slice of the corridor
sequence: the window entry at offset i wraps the corridor at global
position n + i, and an advance appends the corridor at position
n + (k - 1). -/
theorem segment_number_is_window_start_and_window_contiguous
    (rooms : List Room) (n k i : ℕ) (seg : Segment)
    (segs segs2 : List Segment) :
    ((reinitialize_segments rooms n k)[i]? = some seg →
      seg.number = n ∧ ∃ r, rooms[n + i]? = some r ∧ seg = create_segment n r) ∧
    (update_segments rooms n k segs = some segs2 →
      ∃ r, rooms[n + (k - 1)]? = some r ∧
        segs2 = segs.drop 1 ++ [create_segment n r] ∧
        (create_segment n r).number = n) := by
  constructor
  · intro hi
    rw [reinitialize_segments, List.getElem?_map] at hi
    cases htd : ((rooms.drop n).take k)[i]? with
    | none => rw [htd] at hi; exact absurd hi (by simp)
    | some r =>
      rw [htd, Option.map_some'] at hi
      rw [Option.some.injEq] at hi
      have hik : i < k := by
        have hl := (List.getElem?_eq_some_iff.mp htd).1
        rw [List.length_take] at hl
        omega
      rw [List.getElem?_take_of_lt hik, List.getElem?_drop] at htd
      exact ⟨by rw [← hi]; rfl, r, htd, hi.symm⟩
  · intro hu
    cases hr : rooms[n + (k - 1)]? with
    | none =>
      simp only [update_segments, hr] at hu
      exact absurd hu (by simp)
    | some r =>
      simp only [update_segments, hr, Option.some.injEq] at hu
      exact ⟨r, rfl, hu.symm, rfl⟩

/-- Witness for C2 on the two-corridor program: the head segment of
the initial window and the segment appended by an advance. -/
theorem segment_number_is_window_start_and_window_contiguous_witness :
    ((create_segment 0 exRoom0).number = 0 ∧
      ∃ r, exRooms2[0 + 0]? = some r ∧
        create_segment 0 exRoom0 = create_segment 0 r) ∧
    (∃ r, exRooms2[1 + (1 - 1)]? = some r ∧
      [create_segment 1 exRoom1] =
        ([create_segment 0 exRoom0] : List Segment).drop 1 ++
          [create_segment 1 r] ∧
      (create_segment 1 r).number = 1) :=
  ⟨(segment_number_is_window_start_and_window_contiguous exRooms2 0 2 0
      (create_segment 0 exRoom0) [] []).1 rfl,
   (segment_number_is_window_start_and_window_contiguous exRooms2 1 1 0
      (create_segment 0 exRoom0) [create_segment 0 exRoom0]
      [create_segment 1 exRoom1]).2 rfl⟩

/-- Counterexample to C2 as stated: in a window of two corridors the
segment at window offset 1 wraps the corridor at global position 1
(its start and end are that corridor's) but stores number 0, not 1. -/
theorem segment_number_mismatch_at_window_offset_one :
    (reinitialize_segments exRooms2 0 2)[1]? =
      some (create_segment 0 exRoom1) ∧
    (create_segment 0 exRoom1).number = 0 ∧
    exRooms2[1]? = some exRoom1 ∧
    (create_segment 0 exRoom1).start = exRoom1.start ∧
    (create_segment 0 exRoom1).end_ = exRoom1.end_ ∧
    exRoom0.start ≠ exRoom1.start ∧
    (0 : ℕ) ≠ 1 :=
  ⟨rfl, rfl, rfl, rfl, rfl, by decide, by decide⟩

/-- Claim C3 (amended): at (re)initialization the window holds exactly
min(k, remaining) segments; an advance instead indexes the corridor at
position n + (k - 1) unconditionally, failing (the modelled
IndexError) exactly when that index is past the corridor list, and
preserving the window length on success. -/
theorem window_length_min_at_init_and_advance_fails_at_tail
    (rooms : List Room) (n k : ℕ) (segs segs2 : List Segment) :
    (reinitialize_segments rooms n k).length = min k (rooms.length - n) ∧
    (1 ≤ k → (update_segments rooms n k segs = none ↔
      rooms.length ≤ n + (k - 1))) ∧
    (segs ≠ [] → update_segments rooms n k segs = some segs2 →
      segs2.length = segs.length) := by
  refine ⟨?_, fun _ => ?_, fun hne hu => ?_⟩
  · rw [reinitialize_segments, List.length_map, List.length_take,
      List.length_drop]
  · cases hr : rooms[n + (k - 1)]? with
    | none =>
      simp only [update_segments, hr]
      exact ⟨fun _ => List.getElem?_eq_none_iff.mp hr, fun _ => trivial⟩
    | some r =>
      simp only [update_segments, hr]
      constructor
      · intro hcontra
        exact absurd hcontra (by simp)
      · intro hlen
        have hlt := (List.getElem?_eq_some_iff.mp hr).1
        exact absurd hlen (by omega)
  · cases hr : rooms[n + (k - 1)]? with
    | none =>
      simp only [update_segments, hr] at hu
      exact absurd hu (by simp)
    | some r =>
      simp only [update_segments, hr, Option.some.injEq] at hu
      rw [← hu, List.length_append, List.length_drop, List.length_singleton]
      have hpos : 0 < segs.length := List.length_pos.mpr hne
      omega

/-- Witness for C3: the initial two-corridor window has min-length 2;
the advance past the final corridor reports failure via the iff; a
successful advance preserves the window length. -/
theorem window_length_min_at_init_and_advance_fails_at_tail_witness :
    (reinitialize_segments exRooms2 0 2).length =
      min 2 (exRooms2.length - 0) ∧
    (update_segments exRooms2 1 2 (reinitialize_segments exRooms2 0 2) =
        none ↔ exRooms2.length ≤ 1 + (2 - 1)) ∧
    ([create_segment 1 exRoom1] : List Segment).length =
      ([create_segment 0 exRoom0] : List Segment).length :=
  ⟨(window_length_min_at_init_and_advance_fails_at_tail exRooms2 0 2
      [] []).1,
   (window_length_min_at_init_and_advance_fails_at_tail exRooms2 1 2
      (reinitialize_segments exRooms2 0 2) []).2.1 (by decide),
   (window_length_min_at_init_and_advance_fails_at_tail exRooms2 1 1
      [create_segment 0 exRoom0] [create_segment 1 exRoom1]).2.2
      (by simp) rfl⟩

/-- Counterexample to C3 as stated: after the first advance of a
two-corridor program with look-ahead 2, one corridor remains, so the
claim demands a window of length min(2, 1) = 1; the code instead fails
with an out-of-range index (none). -/
theorem update_segments_fails_instead_of_shrinking :
    update_segments exRooms2 1 2 (reinitialize_segments exRooms2 0 2) =
      none ∧
    min 2 (exRooms2.length - 1) = 1 :=
  ⟨rfl, rfl⟩

/-- Claim C4 (amended): a singular per-axis re-projection system makes
the stitcher propagate the linear-algebra failure: the combined-segment
guess is never an ok value (first conjunct), a fully solvable system
returns the coefficients with motion time t1 + t2 (second conjunct),
and the failure also propagates through the warm-start path of
get_init_guess, which installs no handler (third conjunct); no
centerline substitute is produced. -/
theorem combined_guess_propagates_singular_error
    (axes : List (List (List ℚ) × List ℚ)) (t1 t2 : ℚ) :
    ((∃ p ∈ axes, ∃ e, la_solve p.1 p.2 = Except.error e) →
      ∀ res, get_init_guess_combined_segment axes t1 t2 ≠ Except.ok res) ∧
    (∀ cs, solveAxes axes = Except.ok cs →
      get_init_guess_combined_segment axes t1 t2 = Except.ok (cs, t1 + t2)) ∧
    (∀ e lastG res2, get_init_guess_combined_segment axes t1 t2 =
        Except.error e →
      get_init_guess_warm axes t1 t2 lastG ≠ Except.ok res2) := by
  refine ⟨?_, ?_, ?_⟩
  · rintro ⟨p, hp, e, he⟩ res hok
    cases hs : solveAxes axes with
    | error e2 =>
      simp only [get_init_guess_combined_segment, hs] at hok
      exact absurd hok (by simp)
    | ok cs =>
      obtain ⟨c, hc⟩ := solveAxes_ok_mem axes cs hs p hp
      rw [he] at hc
      exact absurd hc (by simp)
  · intro cs h
    simp [get_init_guess_combined_segment, h]
  · intro e lastG res2 he hok
    simp only [get_init_guess_warm, he] at hok
    exact absurd hok (by simp)

/-- Witness for C4: a singular 2x2 system yields no ok result, the
identity system is solved with motion time 1 + 1, and the singular
failure also blocks the warm-start path. -/
theorem combined_guess_propagates_singular_error_witness :
    get_init_guess_combined_segment [([[1, 1], [1, 1]], [1, 2])] 1 1 ≠
      Except.ok ([], 0) ∧
    get_init_guess_combined_segment [([[1, 0], [0, 1]], [2, 3])] 1 1 =
      Except.ok ([[2, 3]], 1 + 1) ∧
    get_init_guess_warm [([[1, 1], [1, 1]], [1, 2])] 1 1 ([], 0) ≠
      Except.ok ([], []) :=
  ⟨(combined_guess_propagates_singular_error
      [([[1, 1], [1, 1]], [1, 2])] 1 1).1
      ⟨([[1, 1], [1, 1]], [1, 2]), by simp, "singular matrix",
        by with_unfolding_all rfl⟩ ([], 0),
   (combined_guess_propagates_singular_error
      [([[1, 0], [0, 1]], [2, 3])] 1 1).2.1 [[2, 3]]
      (by with_unfolding_all rfl),
   (combined_guess_propagates_singular_error
      [([[1, 1], [1, 1]], [1, 2])] 1 1).2.2 "singular matrix" ([], 0)
      ([], []) (by with_unfolding_all rfl)⟩

/-- Counterexample to C4 as stated: on a concrete singular system the
stitcher returns the propagated error, both directly and through the
warm-start path; it does not recover with a centerline guess. -/
theorem combined_guess_singular_counterexample :
    get_init_guess_combined_segment [([[1, 1], [1, 1]], [1, 2])] 1 1 =
      Except.error "singular matrix" ∧
    get_init_guess_warm [([[1, 1], [1, 1]], [1, 2])] 1 1 ([], 0) =
      Except.error "singular matrix" :=
  ⟨by with_unfolding_all rfl, by with_unfolding_all rfl⟩
